import Mathlib

/-!
Verification development for the `api_next` job-order workflow kernel.

The definitions below are a shallow embedding of the Python source:

* `api_next/workflows/business_rules_engine.py` (class `BusinessRulesEngine`)
* `api_next/workflows/job_order_workflow.py` (class `JobOrderWorkflow`)
* `api_next/job_management/doctype/job_order_workflow_history/job_order_workflow_history.py`
* `api_next/api/job_workflow_advanced.py` (scheduled transitions)

Python dict/attribute values are modelled by the `Value` type below.
Numbers are modelled as `Int` (the claims under verification only exercise
integer-valued numeric fields; Python `float` coercion failure on a
non-numeric string is modelled as an exception, exactly as in the source).
Wall-clock datetimes are modelled as integer Unix-style second counts.
-/

namespace ApiNext

/-- Python values as they appear in rule conditions, contexts and documents.
`vNone` is Python `None`; `vDict` supports the nested dotted-path lookup of
`BusinessRulesEngine._get_field_value`. -/
inductive Value where
  | vNone : Value
  | vBool (b : Bool) : Value
  | vInt (n : Int) : Value
  | vStr (s : String) : Value
  | vList (l : List Value) : Value
  | vDict (d : List (String × Value)) : Value

mutual

/-- Python `==` on the modelled value fragment (structural equality;
cross-type numeric/bool equalities such as `1 == True` are outside the
fragment exercised by the verified claims). -/
def pyEq : Value → Value → Bool
  | .vNone, .vNone => true
  | .vBool a, .vBool b => a == b
  | .vInt a, .vInt b => a == b
  | .vStr a, .vStr b => a == b
  | .vList a, .vList b => pyEqList a b
  | .vDict a, .vDict b => pyEqDict a b
  | _, _ => false

/-- Elementwise Python `==` on lists. -/
def pyEqList : List Value → List Value → Bool
  | [], [] => true
  | a :: as', b :: bs => pyEq a b && pyEqList as' bs
  | _, _ => false

/-- Entrywise Python `==` on dicts (modelled as ordered association lists). -/
def pyEqDict : List (String × Value) → List (String × Value) → Bool
  | [], [] => true
  | (k, a) :: as', (l, b) :: bs => k == l && pyEq a b && pyEqDict as' bs
  | _, _ => false

end

/-- Python truthiness (`bool(x)`) on the modelled fragment. -/
def truthy : Value → Bool
  | .vNone => false
  | .vBool b => b
  | .vInt n => n != 0
  | .vStr s => s != ""
  | .vList l => !l.isEmpty
  | .vDict d => !d.isEmpty

/-- Python `str(x)` on the modelled fragment. Container rendering is not
exercised by any verified claim and is abbreviated. -/
def pyStr : Value → String
  | .vNone => "None"
  | .vBool b => if b then "True" else "False"
  | .vInt n => toString n
  | .vStr s => s
  | .vList _ => "<list>"
  | .vDict _ => "<dict>"

/-- Digit-string parse used to model `float` on numeral strings. -/
def parseDigits : List Char → Option Nat
  | [] => none
  | cs =>
    if cs.all (fun c => 48 ≤ c.toNat && c.toNat ≤ 57)
    then some (cs.foldl (fun n c => n * 10 + (c.toNat - 48)) 0) else none

/-- Integer-numeral parse (optional sign) used to model `float` on strings;
the claims under verification only exercise integer-valued numerics. -/
def parseIntAscii (s : String) : Option Int :=
  match s.data with
  | '-' :: rest => (parseDigits rest).map (fun n => -(n : Int))
  | '+' :: rest => (parseDigits rest).map (fun n => (n : Int))
  | cs => (parseDigits cs).map (fun n => (n : Int))

/-- Python `float(x)` on the modelled fragment, with numbers restricted to
integers: succeeds on ints, bools and integer-numeral strings, raises
(`.error`) on `None`, non-numeric strings and containers. -/
def pyFloatStrict : Value → Except Unit Int
  | .vInt n => .ok n
  | .vBool b => .ok (if b then 1 else 0)
  | .vStr s => match parseIntAscii s with
    | some n => .ok n
    | none => .error ()
  | _ => .error ()

/-- Python `float(x or 0)`: a falsy `x` is replaced by `0` before coercion
(this is how `_evaluate_single_condition` coerces the actual value). -/
def pyFloatOr0 (v : Value) : Except Unit Int :=
  if truthy v then pyFloatStrict v else .ok 0

/-- An evaluation context / document: a Python dict from field names to values. -/
def Ctx := List (String × Value)

/-- `dict.get(field)` (returns `None` when the key is absent). -/
def ctxGet (ctx : Ctx) (field : String) : Value :=
  (List.lookup field ctx).getD .vNone

/-- Nested walk used by `_get_field_value` for dotted paths: at each step a
dict is indexed with `.get(part)`; a non-dict intermediate value yields `None`. -/
def walkPath : List String → Value → Value
  | [], v => v
  | p :: ps, .vDict d => walkPath ps ((List.lookup p d).getD .vNone)
  | _ :: _, _ => .vNone

/-- `BusinessRulesEngine._get_field_value`: dotted paths (`"." in field`)
are resolved through nested dicts, plain fields directly in the context. -/
def getFieldValue (field : String) (ctx : Ctx) : Value :=
  if field.data.contains '.' then walkPath (field.splitOn ".") (.vDict ctx)
  else ctxGet ctx field

/-- Python `str.upper()` on the ASCII fragment the rule `logic` values live
in. -/
def upperAscii (s : String) : String :=
  String.mk (s.data.map (fun c =>
    if 97 ≤ c.toNat ∧ c.toNat ≤ 122 then Char.ofNat (c.toNat - 32) else c))

/-- One rule condition (`{field, operator, value, logic}`).  A missing
`field`/`operator` key is encoded as `""` (Python `None` is falsy exactly like
`""` under the `if not field or not operator` guard in the source); `logic`
is `none` when the key is absent (the source reads it with
`.get("logic", "AND")`). -/
structure Condition where
  field : String
  operator : String
  value : Value
  logic : Option String

/-- Substring test (`needle in hay` on Python strings). -/
def strHasSub (hay needle : String) : Bool :=
  (List.range (hay.length + 1)).any (fun i => needle.isPrefixOf (hay.drop i))

/-- Numeric comparison `float(actual_value or 0) OP float(expected_value)`;
a coercion failure on either side is the exception the per-condition
`try/except` of `evaluate_conditions` catches. -/
def numCompare (cmp : Int → Int → Bool) (actual expected : Value) : Except Unit Bool :=
  match pyFloatOr0 actual, pyFloatStrict expected with
  | .ok a, .ok b => .ok (cmp a b)
  | _, _ => .error ()

/-- `BusinessRulesEngine._evaluate_single_condition`.  `.error ()` models an
exception escaping the function (e.g. `float` coercion failure); the caller
`evaluate_conditions` catches it.  The `regex` and `date_*` operators of the
source are outside the fragment exercised by the verified claims and fall to
the unknown-operator branch (which returns `False` in the source). -/
def evalSingleCondition (c : Condition) (ctx : Ctx) : Except Unit Bool :=
  if c.field = "" ∨ c.operator = "" then .ok false
  else
    let actual := getFieldValue c.field ctx
    if c.operator = "==" then .ok (pyEq actual c.value)
    else if c.operator = "!=" then .ok (!pyEq actual c.value)
    else if c.operator = ">" then numCompare (fun a b => a > b) actual c.value
    else if c.operator = ">=" then numCompare (fun a b => a ≥ b) actual c.value
    else if c.operator = "<" then numCompare (fun a b => a < b) actual c.value
    else if c.operator = "<=" then numCompare (fun a b => a ≤ b) actual c.value
    else if c.operator = "in" then
      .ok (match c.value with
        | .vList l => l.any (pyEq actual)
        | _ => false)
    else if c.operator = "not_in" then
      .ok (match c.value with
        | .vList l => !l.any (pyEq actual)
        | _ => true)
    else if c.operator = "contains" then
      .ok (strHasSub (if truthy actual then pyStr actual else "") (pyStr c.value))
    else if c.operator = "not_contains" then
      .ok (!strHasSub (if truthy actual then pyStr actual else "") (pyStr c.value))
    else if c.operator = "starts_with" then
      .ok ((if truthy actual then pyStr actual else "").startsWith (pyStr c.value))
    else if c.operator = "ends_with" then
      .ok ((if truthy actual then pyStr actual else "").endsWith (pyStr c.value))
    else if c.operator = "is_null" then
      .ok (pyEq actual .vNone || pyEq actual (.vStr ""))
    else if c.operator = "is_not_null" then
      .ok (!pyEq actual .vNone && !pyEq actual (.vStr ""))
    else .ok false

/-- The boolean a condition contributes to the result list: the per-condition
`try/except` in `evaluate_conditions` appends `False` when evaluation raised. -/
def condResultBool (c : Condition) (ctx : Ctx) : Bool :=
  match evalSingleCondition c ctx with
  | .ok b => b
  | .error _ => false

/-- Result dict of `evaluate_conditions` (the empty-list early return omits
`individual_results` in the source; it is `[]` here). -/
structure ConditionsResult where
  all_passed : Bool
  total : Nat
  passed : Nat
  individual_results : List Bool

/-- `BusinessRulesEngine.evaluate_conditions`: each condition is evaluated
under a `try/except` (an exception counts as `False`); the list is then
combined with `any` when the FIRST condition's `logic` upper-cases to `"OR"`,
and with `all` otherwise. -/
def evaluate_conditions (conditions : List Condition) (ctx : Ctx) : ConditionsResult :=
  match conditions with
  | [] => ⟨true, 0, 0, []⟩
  | c0 :: rest =>
    let results := (c0 :: rest).map (fun c => condResultBool c ctx)
    let logicOperator := c0.logic.getD "AND"
    let all_passed :=
      if upperAscii logicOperator = "OR" then results.any id else results.all id
    ⟨all_passed, results.length, results.count true, results⟩

/-- One rule action (`{type, ...parameters}`); the string parameters the
action handlers read with `.get(key, default)` are kept as an association
list. -/
structure RuleAction where
  typ : String
  params : List (String × String)

/-- `action.get(key, default)` for string parameters. -/
def paramGet (a : RuleAction) (key dflt : String) : String :=
  (List.lookup key a.params).getD dflt

/-- `action.get(key)` rendered by an f-string (absent keys print as `None`). -/
def paramGetStr (a : RuleAction) (key : String) : String :=
  (List.lookup key a.params).getD "None"

/-- `BusinessRulesEngine._execute_action`: dispatch on the action type to the
token-producing handlers; an unknown action type is logged and yields `None`. -/
def executeAction (a : RuleAction) : Option String :=
  if a.typ = "require_approval" then
    some ("approval_required:" ++ paramGet a "role" "Manager")
  else if a.typ = "priority_allocation" then
    some ("priority_set:" ++ paramGet a "level" "normal")
  else if a.typ = "check_lead_times" then
    some "lead_times_checked"
  else if a.typ = "require_quality_inspection" then
    some "quality_inspection_required"
  else if a.typ = "send_notification" then
    some ("notification_sent:" ++ paramGet a "recipient" "Administrator"
      ++ ":" ++ paramGet a "message" "Business rule triggered")
  else if a.typ = "set_field" then
    some ("field_set:" ++ paramGetStr a "field" ++ ":" ++ paramGetStr a "value")
  else if a.typ = "create_task" then
    some ("task_created:" ++ paramGet a "task_type" "general")
  else none

/-- A business rule (`{name, type, conditions, actions}`). -/
structure Rule where
  name : String
  rtype : Option String
  conditions : List Condition
  actions : List RuleAction

/-- Result dict of `execute_rule`. -/
structure RuleResult where
  rule_name : String
  passed : Bool
  conditions_evaluated : Nat
  conditions_passed : Nat
  actions : List String

/-- `BusinessRulesEngine.execute_rule`: evaluate the rule's conditions; when
they pass, run every action in order, collecting the non-`None` result
tokens. -/
def execute_rule (rule : Rule) (ctx : Ctx) : RuleResult :=
  let cr := evaluate_conditions rule.conditions ctx
  { rule_name := rule.name
    passed := cr.all_passed
    conditions_evaluated := cr.total
    conditions_passed := cr.passed
    actions := if cr.all_passed then rule.actions.filterMap executeAction else [] }

/-- Result dict of `evaluate`. -/
structure EvalResults where
  rules_evaluated : List String
  rules_passed : List String
  rules_failed : List String
  actions_triggered : List String
  overall_result : Bool

/-- One iteration of the rule loop in `BusinessRulesEngine.evaluate`. -/
def evalStep (ctx : Ctx) (acc : EvalResults) (rule : Rule) : EvalResults :=
  let r := execute_rule rule ctx
  let acc := { acc with rules_evaluated := acc.rules_evaluated ++ [rule.name] }
  if r.passed then
    { acc with rules_passed := acc.rules_passed ++ [rule.name]
               actions_triggered := acc.actions_triggered ++ r.actions }
  else
    { acc with rules_failed := acc.rules_failed ++ [rule.name]
               overall_result := false }

/-- The rule loop of `BusinessRulesEngine.evaluate` over an explicit rule
list (in the source the list comes from `_get_applicable_rules`; the loop
body is what the claims are about).  Each iteration sits under a
`try/except` in the source; in this embedding `execute_rule` is total, so
the per-rule exception path of `evaluate` itself is unreachable. -/
def evaluate_rules (ctx : Ctx) (rules : List Rule) : EvalResults :=
  rules.foldl (evalStep ctx) ⟨[], [], [], [], true⟩

/-! ## Phase Registry (`JobOrderWorkflow.PHASES`) -/

/-- One phase definition of the `JobOrderWorkflow.PHASES` class dictionary.
`permissions` is the per-action role map; `escalation` holds
`(timeout_days, escalate_to)` when configured. -/
structure PhaseConfig where
  phase_order : Int
  transitions : List String
  required_fields : List String
  permissions : List (String × List String)
  auto_actions : List String
  validation_rules : List String
  escalation : Option (Int × List String)

/-- The static `PHASES` dictionary of `JobOrderWorkflow`, transcribed from the
source. -/
def PHASES : List (String × PhaseConfig) :=
  [ ("Submission",
      { phase_order := 1
        transitions := ["Estimation", "Cancelled"]
        required_fields := ["customer_name", "project_name", "job_type", "start_date", "description"]
        permissions := [("submit", ["Job Coordinator", "Project Manager", "System Manager"]),
                        ("approve", ["Job Coordinator", "Project Manager", "System Manager"])]
        auto_actions := ["create_phase_history", "notify_estimator"]
        validation_rules := ["validate_basic_info", "check_customer_credit"]
        escalation := none }),
    ("Estimation",
      { phase_order := 2
        transitions := ["Client Approval", "Submission"]
        required_fields := ["scope_of_work", "material_requisitions", "labor_entries"]
        permissions := [("submit", ["Estimator", "Project Manager", "System Manager"]),
                        ("approve", ["Estimator", "Project Manager", "System Manager"])]
        auto_actions := ["calculate_estimates", "create_phase_history", "notify_client"]
        validation_rules := ["validate_estimates", "check_material_availability"]
        escalation := none }),
    ("Client Approval",
      { phase_order := 3
        transitions := ["Planning", "Estimation", "Cancelled"]
        required_fields := ["total_material_cost", "total_labor_cost"]
        permissions := [("submit", ["Client", "Sales Manager", "Project Manager", "System Manager"]),
                        ("approve", ["Client", "Sales Manager", "Project Manager", "System Manager"])]
        auto_actions := ["create_phase_history", "notify_planning_team"]
        validation_rules := ["validate_client_approval", "check_contract_terms"]
        escalation := some (7, ["Sales Manager", "Project Manager"]) }),
    ("Planning",
      { phase_order := 4
        transitions := ["Prework", "Client Approval"]
        required_fields := ["team_members", "start_date", "end_date"]
        permissions := [("submit", ["Project Manager", "Resource Coordinator", "System Manager"]),
                        ("approve", ["Project Manager", "Resource Coordinator", "System Manager"])]
        auto_actions := ["allocate_resources", "create_phase_history", "notify_team"]
        validation_rules := ["validate_resource_availability", "check_schedule_conflicts"]
        escalation := none }),
    ("Prework",
      { phase_order := 5
        transitions := ["Execution", "Planning"]
        required_fields := ["material_requisitions", "team_members"]
        permissions := [("submit", ["Project Manager", "Site Supervisor", "System Manager"]),
                        ("approve", ["Project Manager", "Site Supervisor", "System Manager"])]
        auto_actions := ["order_materials", "prepare_equipment", "create_phase_history", "notify_execution_team"]
        validation_rules := ["validate_material_orders", "check_permits", "verify_equipment_availability"]
        escalation := none }),
    ("Execution",
      { phase_order := 6
        transitions := ["Review", "Prework"]
        required_fields := ["labor_entries"]
        permissions := [("submit", ["Site Supervisor", "Technician", "Project Manager", "System Manager"]),
                        ("approve", ["Site Supervisor", "Project Manager", "System Manager"])]
        auto_actions := ["track_progress", "update_labor_hours", "create_phase_history", "notify_review_team"]
        validation_rules := ["validate_work_completion", "check_quality_standards"]
        escalation := none }),
    ("Review",
      { phase_order := 7
        transitions := ["Invoicing", "Execution"]
        required_fields := ["total_labor_hours", "total_material_cost"]
        permissions := [("submit", ["Quality Inspector", "Project Manager", "System Manager"]),
                        ("approve", ["Quality Inspector", "Client", "Project Manager", "System Manager"])]
        auto_actions := ["conduct_quality_check", "client_walkthrough", "create_phase_history", "notify_billing"]
        validation_rules := ["validate_quality_standards", "client_sign_off"]
        escalation := none }),
    ("Invoicing",
      { phase_order := 8
        transitions := ["Closeout", "Review"]
        required_fields := ["total_material_cost", "total_labor_cost"]
        permissions := [("submit", ["Billing Clerk", "Accountant", "Project Manager", "System Manager"]),
                        ("approve", ["Accountant", "Project Manager", "System Manager"])]
        auto_actions := ["generate_invoice", "send_to_client", "create_phase_history", "notify_accounts"]
        validation_rules := ["validate_billing_amounts", "check_payment_terms"]
        escalation := none }),
    ("Closeout",
      { phase_order := 9
        transitions := ["Archived"]
        required_fields := ["documents", "total_labor_hours", "total_material_cost", "total_labor_cost"]
        permissions := [("submit", ["Project Manager", "Document Controller", "System Manager"]),
                        ("approve", ["Project Manager", "System Manager"])]
        auto_actions := ["archive_documents", "generate_final_report", "create_phase_history", "notify_completion"]
        validation_rules := ["validate_documentation", "confirm_payment_received"]
        escalation := none }),
    ("Archived",
      { phase_order := 10
        transitions := []
        required_fields := []
        permissions := [("view", ["All Roles"])]
        auto_actions := ["final_archival"]
        validation_rules := []
        escalation := none }),
    ("Cancelled",
      { phase_order := 0
        transitions := ["Submission"]
        required_fields := ["cancellation_reason"]
        permissions := [("submit", ["Project Manager", "System Manager"]),
                        ("approve", ["Project Manager", "System Manager"])]
        auto_actions := ["release_resources", "notify_cancellation", "create_phase_history"]
        validation_rules := ["validate_cancellation_reason"]
        escalation := none }) ]

/-- `JobOrderWorkflow.get_phase_config`: `cls.PHASES.get(phase_name, {})`.
The empty-dict default of the source is modelled as `none`. -/
def get_phase_config (phase_name : String) : Option PhaseConfig :=
  List.lookup phase_name PHASES

/-- `JobOrderWorkflow.get_valid_transitions`:
`get_phase_config(current_phase).get("transitions", [])`. -/
def get_valid_transitions (current_phase : String) : List String :=
  ((get_phase_config current_phase).map (fun c => c.transitions)).getD []

/-- `phase_config.get("required_fields", [])` on the destination phase. -/
def phaseRequiredFields (phase : String) : List String :=
  ((get_phase_config phase).map (fun c => c.required_fields)).getD []

/-- `phase_config.get("permissions", {}).get("submit", [])` on the
destination phase. -/
def phaseSubmitRoles (phase : String) : List String :=
  match get_phase_config phase with
  | none => []
  | some c => (List.lookup "submit" c.permissions).getD []

/-- `phase_config.get("validation_rules", [])` on the destination phase. -/
def phaseValidationRules (phase : String) : List String :=
  ((get_phase_config phase).map (fun c => c.validation_rules)).getD []

/-- `phase_config.get("auto_actions", [])` on the destination phase. -/
def phaseAutoActions (phase : String) : List String :=
  ((get_phase_config phase).map (fun c => c.auto_actions)).getD []

/-! ## Transition validation (`JobOrderWorkflow.validate_transition`) -/

/-- The `{valid, message}` dict returned by validation. -/
structure ValidationResult where
  valid : Bool
  message : String

/-- A job-order document: field name to value, read with
`getattr(doc, field, None)` semantics (absent fields are `None`). -/
def Doc := Ctx

/-- `getattr(doc, field, None)`. -/
def docGet (doc : Doc) (field : String) : Value :=
  ctxGet doc field

/-- `getattr(doc, 'workflow_state', 'Submission')` as read by
`execute_transition` (non-string stored states are outside the modelled
fragment). -/
def docWorkflowState (doc : Doc) : String :=
  match List.lookup "workflow_state" doc with
  | some (.vStr s) => s
  | _ => "Submission"

/-- `doc.workflow_state = new_state`. -/
def docSetState (doc : Doc) (new_state : String) : Doc :=
  ("workflow_state", .vStr new_state) :: doc.filter (fun kv => kv.1 ≠ "workflow_state")

/-- `JobOrderWorkflow._validate_basic_info`. -/
def validateBasicInfo (doc : Doc) : ValidationResult :=
  let missing := ["customer_name", "project_name", "job_type", "description"].filter
    (fun f => !truthy (docGet doc f))
  if missing ≠ [] then
    ⟨false, "Missing basic information: " ++ String.intercalate ", " missing⟩
  else ⟨true, "Basic information validated"⟩

/-- `JobOrderWorkflow._validate_estimates`. -/
def validateEstimates (doc : Doc) : ValidationResult :=
  if !truthy (docGet doc "material_requisitions") && !truthy (docGet doc "labor_entries") then
    ⟨false, "Either material requisitions or labor entries must be provided"⟩
  else ⟨true, "Estimates validated"⟩

/-- `JobOrderWorkflow._validate_resource_availability`. -/
def validateResourceAvailability (doc : Doc) : ValidationResult :=
  if !truthy (docGet doc "team_members") then
    ⟨false, "Team members must be assigned"⟩
  else ⟨true, "Resource availability validated"⟩

/-- `JobOrderWorkflow._validate_billing_amounts`. -/
def validateBillingAmounts (doc : Doc) : ValidationResult :=
  if !truthy (docGet doc "total_material_cost") && !truthy (docGet doc "total_labor_cost") then
    ⟨false, "No billing amounts calculated"⟩
  else ⟨true, "Billing amounts validated"⟩

/-- `JobOrderWorkflow._validate_cancellation_reason` (`hasattr` plus
truthiness collapses to truthiness in the field-map model). -/
def validateCancellationReason (doc : Doc) : ValidationResult :=
  if !truthy (docGet doc "cancellation_reason") then
    ⟨false, "Cancellation reason is required"⟩
  else ⟨true, "Cancellation reason validated"⟩

/-- The validation rule names the `_execute_validation_rule` dispatcher
knows, in the order of its `if/elif` chain. -/
def knownValidationRules : List String :=
  ["validate_basic_info", "check_customer_credit", "validate_estimates",
   "check_material_availability", "validate_client_approval", "check_contract_terms",
   "validate_resource_availability", "check_schedule_conflicts", "validate_material_orders",
   "check_permits", "verify_equipment_availability", "validate_work_completion",
   "check_quality_standards", "validate_quality_standards", "client_sign_off",
   "validate_billing_amounts", "check_payment_terms", "validate_documentation",
   "confirm_payment_received", "validate_cancellation_reason"]

/-- `JobOrderWorkflow._execute_validation_rule`: dispatch on the rule name
(the `from_state`/`to_state` arguments of the source are unused by every
rule body and are omitted); an unknown rule name returns
`valid=True` with an "Unknown validation rule" message.  The rule bodies
that always pass in the source are transcribed as such. -/
def execValidationRule (doc : Doc) (rule_name : String) : ValidationResult :=
  if rule_name = "validate_basic_info" then validateBasicInfo doc
  else if rule_name = "check_customer_credit" then ⟨true, "Customer credit check passed"⟩
  else if rule_name = "validate_estimates" then validateEstimates doc
  else if rule_name = "check_material_availability" then ⟨true, "Material availability confirmed"⟩
  else if rule_name = "validate_client_approval" then ⟨true, "Client approval validated"⟩
  else if rule_name = "check_contract_terms" then ⟨true, "Contract terms validated"⟩
  else if rule_name = "validate_resource_availability" then validateResourceAvailability doc
  else if rule_name = "check_schedule_conflicts" then ⟨true, "No scheduling conflicts found"⟩
  else if rule_name = "validate_material_orders" then ⟨true, "Material orders validated"⟩
  else if rule_name = "check_permits" then ⟨true, "Permits verified"⟩
  else if rule_name = "verify_equipment_availability" then ⟨true, "Equipment availability verified"⟩
  else if rule_name = "validate_work_completion" then ⟨true, "Work completion validated"⟩
  else if rule_name = "check_quality_standards" then ⟨true, "Quality standards met"⟩
  else if rule_name = "validate_quality_standards" then ⟨true, "Quality standards validated"⟩
  else if rule_name = "client_sign_off" then ⟨true, "Client sign-off confirmed"⟩
  else if rule_name = "validate_billing_amounts" then validateBillingAmounts doc
  else if rule_name = "check_payment_terms" then ⟨true, "Payment terms validated"⟩
  else if rule_name = "validate_documentation" then ⟨true, "Documentation validated"⟩
  else if rule_name = "confirm_payment_received" then ⟨true, "Payment confirmed"⟩
  else if rule_name = "validate_cancellation_reason" then validateCancellationReason doc
  else ⟨true, "Unknown validation rule: " ++ rule_name⟩

/-- The validation-rule loop of `validate_transition`: the first failing rule
result is returned; when every rule passes the success dict is returned. -/
def runValidationRules (doc : Doc) : List String → ValidationResult
  | [] => ⟨true, "Transition validated successfully"⟩
  | r :: rs =>
    let res := execValidationRule doc r
    if res.valid then runValidationRules doc rs else res

/-- `JobOrderWorkflow.validate_transition(doc, from_state, to_state, user)`.
The user's resolved roles (`frappe.get_roles(user)`, an external collaborator)
are passed explicitly as `userRoles`.  Checks short-circuit in source order:
transition allowed, submit roles, required fields (collecting EVERY missing
field into the message), then the named validation rules. -/
def validate_transition (doc : Doc) (from_state to_state : String)
    (userRoles : List String) : ValidationResult :=
  let valid_transitions := get_valid_transitions from_state
  if !valid_transitions.contains to_state then
    ⟨false, "Invalid transition from " ++ from_state ++ " to " ++ to_state
      ++ ". Valid transitions: " ++ String.intercalate ", " valid_transitions⟩
  else
    let required_roles := phaseSubmitRoles to_state
    if required_roles ≠ [] ∧ !required_roles.any (fun role => userRoles.contains role) then
      ⟨false, "User does not have required roles for " ++ to_state
        ++ ". Required: " ++ String.intercalate ", " required_roles⟩
    else
      let missing_fields := (phaseRequiredFields to_state).filter
        (fun f => !truthy (docGet doc f))
      if missing_fields ≠ [] then
        ⟨false, "Missing required fields for " ++ to_state ++ ": "
          ++ String.intercalate ", " missing_fields⟩
      else
        runValidationRules doc (phaseValidationRules to_state)

/-! ## Transition execution (`JobOrderWorkflow.execute_transition`) -/

/-- The auto-action names the `_execute_auto_actions` dispatcher knows
besides `create_phase_history` (which its loop `continue`s past); an action
name outside this list matches no `elif` branch and is silently skipped. -/
def knownAutoActions : List String :=
  ["notify_estimator", "calculate_estimates", "notify_client", "notify_planning_team",
   "allocate_resources", "notify_team", "order_materials", "prepare_equipment",
   "notify_execution_team", "track_progress", "update_labor_hours", "notify_review_team",
   "conduct_quality_check", "client_walkthrough", "notify_billing", "generate_invoice",
   "send_to_client", "notify_accounts", "archive_documents", "generate_final_report",
   "notify_completion", "final_archival", "release_resources", "notify_cancellation"]

/-- `JobOrderWorkflow._execute_auto_actions`: run the destination phase's
auto-actions in order.  The dispatched implementations are placeholder hooks
in the source (`pass` bodies); their behaviour, including possible failure, is
modelled by the `handler` parameter.  Each call sits under a per-action
`try/except` that logs the error and continues; the returned list is the log
of auto-action errors, in action order. -/
def executeAutoActions (handler : String → Doc → Except String Unit) (doc : Doc) :
    List String → List String
  | [] => []
  | a :: rest =>
    if a = "create_phase_history" then executeAutoActions handler doc rest
    else if a ∈ knownAutoActions then
      match handler a doc with
      | .ok _ => executeAutoActions handler doc rest
      | .error e => ("Auto action error (" ++ a ++ "): " ++ e)
          :: executeAutoActions handler doc rest
    else executeAutoActions handler doc rest

/-- The per-action outcome of the auto-action loop: `some errorMessage` when
the action's handler fails, `none` when it succeeds or is skipped. -/
def autoActionLog (handler : String → Doc → Except String Unit) (doc : Doc)
    (a : String) : Option String :=
  if a = "create_phase_history" then none
  else if a ∈ knownAutoActions then
    match handler a doc with
    | .ok _ => none
    | .error e => some ("Auto action error (" ++ a ++ "): " ++ e)
  else none

/-- The success dict of `execute_transition`, together with the state the
committed unit of work contains: the updated document, the appended
history entry `(from_phase, to_phase, comment)`, the auto-action error log,
and whether an escalation timer was armed. -/
structure TransitionOutcome where
  message : String
  new_state : String
  doc : Doc
  autoActionErrors : List String
  history : String × String × Option String
  escalationArmed : Bool

/-- `JobOrderWorkflow.execute_transition(doc, new_state, user, comment)`:
re-validate, then (inside the source's transactional `try`) set
`workflow_state`, run the auto-actions (whose failures are logged, never
propagated), append the history entry and arm any configured escalation.
An invalid validation result is raised to the caller (`frappe.throw`) before
any state change, modelled as `.error message` with the document untouched. -/
def execute_transition (handler : String → Doc → Except String Unit)
    (doc : Doc) (new_state : String) (userRoles : List String)
    (comment : Option String) : Except String TransitionOutcome :=
  let current_state := docWorkflowState doc
  let validation := validate_transition doc current_state new_state userRoles
  if !validation.valid then .error validation.message
  else
    let doc1 := docSetState doc new_state
    let errs := executeAutoActions handler doc1 (phaseAutoActions new_state)
    .ok { message := "Successfully transitioned from " ++ current_state ++ " to " ++ new_state
          new_state := new_state
          doc := doc1
          autoActionErrors := errs
          history := (current_state, new_state, comment)
          escalationArmed := match get_phase_config new_state with
            | none => false
            | some c => c.escalation.isSome }

/-! ## History Tracker (`JobOrderWorkflowHistory`) -/

/-- One `Job Order Workflow History` record.  `transition_date` is a
timestamp in whole seconds; `duration_in_previous_phase` is the formatted
`HH:MM:SS` string the source writes, `none` while unset.  `from_phase` is
`none`/empty for the first-ever entry of a job order. -/
structure HistoryEntry where
  job_order : String
  from_phase : Option String
  to_phase : String
  transition_date : Int
  duration_in_previous_phase : Option String

/-- Maximum of a list of timestamps (`order_by="transition_date desc",
limit=1` over the matching records). -/
def maxTimestamp : List Int → Option Int
  | [] => none
  | t :: ts =>
    match maxTimestamp ts with
    | none => some t
    | some m => some (max t m)

/-- The lookup inside `calculate_phase_duration`: the most recent existing
record of the same job order whose `to_phase` equals the given phase. -/
def findPreviousTransition (history : List HistoryEntry) (job phase : String) :
    Option Int :=
  maxTimestamp ((history.filter
    (fun h => h.job_order == job && h.to_phase == phase)).map
    (fun h => h.transition_date))

/-- Zero-padding of `f"{n:02d}"` for the non-negative values produced here. -/
def pad2 (n : Int) : String :=
  if 0 ≤ n ∧ n < 10 then "0" ++ toString n else toString n

/-- The `HH:MM:SS` rendering of a duration in seconds
(`duration_seconds // 3600` etc. with Python floor division/modulo). -/
def formatDuration (d : Int) : String :=
  pad2 (d.ediv 3600) ++ ":" ++ pad2 ((d.emod 3600).ediv 60) ++ ":" ++ pad2 (d.emod 60)

/-- `JobOrderWorkflowHistory.calculate_phase_duration`: find the most recent
record whose `to_phase` is this entry's `from_phase`, and set
`duration_in_previous_phase` to the formatted difference of the
`transition_date`s; leave the field untouched when no such record exists.
(`time_diff_in_seconds` of the external frappe layer is modelled as exact
integer subtraction of the second counts.) -/
def calculate_phase_duration (history : List HistoryEntry) (e : HistoryEntry) :
    HistoryEntry :=
  match e.from_phase with
  | none => e
  | some fp =>
    match findPreviousTransition history e.job_order fp with
    | none => e
    | some prev =>
      let dur := formatDuration (e.transition_date - prev)
      { e with duration_in_previous_phase := some dur }

/-- The duration part of `JobOrderWorkflowHistory.before_insert`:
`if self.from_phase and self.job_order: self.calculate_phase_duration()`
(the audit fields `ip_address`/`user_agent`/`user_role` it also sets live in
the external request layer and are not modelled). -/
def before_insert (history : List HistoryEntry) (e : HistoryEntry) : HistoryEntry :=
  match e.from_phase with
  | some fp =>
    if fp ≠ "" ∧ e.job_order ≠ "" then calculate_phase_duration history e else e
  | none => e

/-! ## Scheduled Transition Runner (`api/job_workflow_advanced.py`) -/

/-- One stored transition condition of a scheduled request
(`{type, field, value, hours, reference_field}`); `hours` defaults to `0`
and `reference_field` to `"phase_start_date"` via `.get` in the source. -/
structure TransCondition where
  typ : Option String
  field : String
  value : Value
  hours : Int
  reference_field : String

/-- `_check_transition_conditions(job_order, conditions)`: every stored
condition must hold against the current job document; the first unmet
condition returns `False`, an unknown condition type is skipped.
For `time_elapsed`, a falsy reference field skips the condition; a truthy
non-timestamp reference raises inside the source's `try`, which returns
`False` for the whole check. -/
def checkTransitionConditions (doc : Doc) (now : Int) :
    List TransCondition → Bool
  | [] => true
  | c :: cs =>
    match c.typ with
    | some t =>
      if t = "field_value" then
        if !pyEq (docGet doc c.field) c.value then false
        else checkTransitionConditions doc now cs
      else if t = "field_exists" then
        if !truthy (docGet doc c.field) then false
        else checkTransitionConditions doc now cs
      else if t = "time_elapsed" then
        match docGet doc c.reference_field with
        | .vInt ref =>
          if now - ref < c.hours * 3600 then false
          else checkTransitionConditions doc now cs
        | v => if truthy v then false else checkTransitionConditions doc now cs
      else checkTransitionConditions doc now cs
    | none => checkTransitionConditions doc now cs

/-- A `Scheduled Job Transition` record. -/
structure SchedRequest where
  status : String
  job_order : String
  action : String
  scheduled_date : Int
  comments : Option String
  conditions : Option (List TransCondition)
  created_by : String
  executed_at : Option Int
  execution_result : Option String
  cancellation_reason : Option String
  cancelled_by : Option String
  cancelled_at : Option Int

/-- What one wake of `execute_scheduled_transition` did: the saved request,
the `eta` of a re-enqueued wake if one was armed, and whether
`transition_phase` was invoked. -/
structure WakeResult where
  req : SchedRequest
  enqueued : Option Int
  transitionAttempted : Bool

/-- `execute_scheduled_transition(scheduled_transition_id)`, one wake of the
background job at wall-clock `now`:
1. a request whose status is not `Pending` is a no-op;
2. when stored conditions exist and are unmet, the status is set to
   `Rescheduled` and a new wake is enqueued for `scheduled_date` plus one
   hour (`add_days(scheduled_date, 0, hours=1)`);
3. otherwise `transition_phase` (modelled by the `transitionPhase`
   parameter returning its `(success, message)`) runs the stored action and
   the status becomes `Completed` (with `executed_at`/`execution_result`) or
   `Failed` (with the error message). -/
def execute_scheduled_transition (doc : Doc) (now : Int)
    (transitionPhase : String → String → Bool × String)
    (r : SchedRequest) : WakeResult :=
  if r.status ≠ "Pending" then ⟨r, none, false⟩
  else
    let conds := r.conditions.getD []
    if !conds.isEmpty && !checkTransitionConditions doc now conds then
      ⟨{ r with status := "Rescheduled" }, some (r.scheduled_date + 3600), false⟩
    else
      let res := transitionPhase r.job_order r.action
      if res.1 then
        ⟨{ r with status := "Completed", executed_at := some now,
                  execution_result := some "Success" }, none, true⟩
      else
        ⟨{ r with status := "Failed", execution_result := some res.2 }, none, true⟩

/-- The `{success, error, message}` response shape of the API endpoints. -/
structure ApiResponse where
  success : Bool
  error : Option String
  message : String

/-- `cancel_scheduled_transition(scheduled_transition_id, reason)` invoked by
`sessionUser` whose resolved roles are `userRoles`: only the creator or a
System Manager may cancel; otherwise the status becomes `Cancelled` with the
cancellation audit fields set. -/
def cancel_scheduled_transition (sessionUser : String) (userRoles : List String)
    (now : Int) (r : SchedRequest) (reason : String) : ApiResponse × SchedRequest :=
  if r.created_by ≠ sessionUser ∧ !userRoles.contains "System Manager" then
    (⟨false, some "PermissionError",
      "Only the creator or System Manager can cancel scheduled transitions"⟩, r)
  else
    (⟨true, none, "Scheduled transition cancelled successfully"⟩,
     { r with status := "Cancelled", cancellation_reason := some reason,
              cancelled_by := some sessionUser, cancelled_at := some now })

/-! ## Helper lemmas -/

/-- `float(x or 0)` on an integer is the integer itself (a falsy `0` is
replaced by `0`). -/
theorem pyFloatOr0_vInt (n : Int) : pyFloatOr0 (.vInt n) = .ok n := by
  by_cases h : n = 0 <;> simp [pyFloatOr0, truthy, pyFloatStrict, h]

/-- The auto-action loop collects exactly the per-action outcomes, in action
order. -/
theorem executeAutoActions_eq_filterMap (handler : String → Doc → Except String Unit)
    (doc : Doc) (l : List String) :
    executeAutoActions handler doc l = l.filterMap (autoActionLog handler doc) := by
  induction l with
  | nil => rfl
  | cons a rest ih =>
    by_cases h1 : a = "create_phase_history"
    · simp [executeAutoActions, autoActionLog, h1, ih]
    · by_cases h2 : a ∈ knownAutoActions
      · cases hh : handler a doc <;>
          simp [executeAutoActions, autoActionLog, h1, h2, hh, ih]
      · simp [executeAutoActions, autoActionLog, h1, h2, ih]

/-- Closed form of the rule loop of `evaluate` from an arbitrary accumulator. -/
theorem foldl_evalStep (ctx : Ctx) (rules : List Rule) (acc : EvalResults) :
    rules.foldl (evalStep ctx) acc =
      { rules_evaluated := acc.rules_evaluated ++ rules.map (fun r => r.name)
        rules_passed := acc.rules_passed
          ++ (rules.filter (fun r => (execute_rule r ctx).passed)).map (fun r => r.name)
        rules_failed := acc.rules_failed
          ++ (rules.filter (fun r => !(execute_rule r ctx).passed)).map (fun r => r.name)
        actions_triggered := acc.actions_triggered
          ++ rules.flatMap (fun r =>
              if (execute_rule r ctx).passed then (execute_rule r ctx).actions else [])
        overall_result := acc.overall_result
          && rules.all (fun r => (execute_rule r ctx).passed) } := by
  induction rules generalizing acc with
  | nil => simp
  | cons r rest ih =>
    by_cases h : (execute_rule r ctx).passed <;>
      simp [evalStep, h, ih, List.append_assoc, Bool.and_assoc]

/-- `maxTimestamp` of a non-empty list is a member and an upper bound;
`maxTimestamp` is `none` exactly on the empty list. -/
theorem maxTimestamp_spec (l : List Int) :
    (∀ t, maxTimestamp l = some t → t ∈ l ∧ ∀ x ∈ l, x ≤ t)
  ∧ (maxTimestamp l = none → l = []) := by
  induction l with
  | nil => simp [maxTimestamp]
  | cons a rest ih =>
    constructor
    · intro t ht
      cases hrest : maxTimestamp rest with
      | none =>
        have hre : rest = [] := ih.2 hrest
        subst hre
        simp [maxTimestamp] at ht
        simp [ht]
      | some m =>
        simp [maxTimestamp, hrest] at ht
        have hm := ih.1 m hrest
        constructor
        · rcases max_choice a m with hc | hc <;> rw [← ht, hc]
          · exact List.mem_cons_self a rest
          · exact List.mem_cons_of_mem a hm.1
        · intro x hx
          rcases List.mem_cons.mp hx with hx | hx
          · rw [hx, ← ht]; exact le_max_left a m
          · calc x ≤ m := hm.2 x hx
              _ ≤ t := by rw [← ht]; exact le_max_right a m
    · intro h
      cases hrest : maxTimestamp rest <;> simp [maxTimestamp, hrest] at h

/-! ## Claim theorems -/

/-- The two-condition rule of the C1 example under default AND logic. -/
def rangeRuleAnd : Rule :=
  ⟨"range_rule", none,
   [⟨"a", ">", .vInt 5, none⟩, ⟨"a", "<", .vInt 10, none⟩], []⟩

/-- The same rule with the first condition's `logic` set to `OR`. -/
def rangeRuleOr : Rule :=
  ⟨"range_rule", none,
   [⟨"a", ">", .vInt 5, some "OR"⟩, ⟨"a", "<", .vInt 10, none⟩], []⟩

/-- C1: for every non-empty condition list the per-condition results are
combined with AND unless the FIRST condition's `logic` is `OR`, in which case
the whole list is OR'd (a property of the list, not per-pair); concretely, the
rule with conditions `[a > 5]`, `[a < 10]` under default AND logic passes iff
`5 < a < 10`, and setting the first condition's `logic` to `OR` makes it pass
iff either condition holds. -/
theorem claim1_condition_list_and_or_semantics :
    (∀ (c0 : Condition) (rest : List Condition) (ctx : Ctx),
      (evaluate_conditions (c0 :: rest) ctx).all_passed =
        if upperAscii (c0.logic.getD "AND") = "OR"
        then ((c0 :: rest).map (fun c => condResultBool c ctx)).any id
        else ((c0 :: rest).map (fun c => condResultBool c ctx)).all id)
  ∧ (∀ n : Int,
      ((execute_rule rangeRuleAnd [("a", .vInt n)]).passed = true ↔ 5 < n ∧ n < 10))
  ∧ (∀ n : Int,
      ((execute_rule rangeRuleOr [("a", .vInt n)]).passed = true ↔ 5 < n ∨ n < 10)) := by
  have hgt : ∀ (lg : Option String) (n : Int),
      condResultBool ⟨"a", ">", .vInt 5, lg⟩ [("a", .vInt n)] = decide (5 < n) := by
    intro lg n
    simp [condResultBool, evalSingleCondition, numCompare, getFieldValue, ctxGet,
      List.lookup, pyFloatOr0_vInt, pyFloatStrict,
      show ("a".data.contains '.') = false from rfl]
  have hlt : ∀ (lg : Option String) (n : Int),
      condResultBool ⟨"a", "<", .vInt 10, lg⟩ [("a", .vInt n)] = decide (n < 10) := by
    intro lg n
    simp [condResultBool, evalSingleCondition, numCompare, getFieldValue, ctxGet,
      List.lookup, pyFloatOr0_vInt, pyFloatStrict,
      show ("a".data.contains '.') = false from rfl]
  refine ⟨fun c0 rest ctx => rfl, fun n => ?_, fun n => ?_⟩
  · simp [execute_rule, rangeRuleAnd, evaluate_conditions, hgt, hlt,
      show upperAscii "AND" = "AND" from rfl]
  · simp [execute_rule, rangeRuleOr, evaluate_conditions, hgt, hlt,
      show upperAscii "OR" = "OR" from rfl]

/-- C3 counterexample: a phase name that is not defined yields the EMPTY
result (`{}` from `PHASES.get(phase_name, {})`, hence `[]` transitions) — no
`WorkflowError` is raised; the claimed error does not exist in the code. -/
theorem claim3_counterexample :
    get_phase_config "Quality Audit" = none
  ∧ get_valid_transitions "Quality Audit" = [] := ⟨rfl, rfl⟩

/-- C3 amended: for every phase name that is not a defined phase, the Phase
Registry lookups return an empty configuration and an empty transition list
(silently, with no `WorkflowError`); a transition validated out of such a
phase is consequently rejected through the ordinary invalid-transition
message. -/
theorem claim3_unknown_phase_empty (p : String) (h : List.lookup p PHASES = none) :
    get_phase_config p = none
  ∧ get_valid_transitions p = []
  ∧ ∀ (doc : Doc) (to_state : String) (roles : List String),
      (validate_transition doc p to_state roles).valid = false := by
  refine ⟨h, ?_, ?_⟩
  · simp [get_valid_transitions, get_phase_config, h]
  · intro doc to_state roles
    simp [validate_transition, get_valid_transitions, get_phase_config, h]

/-- Witness for the C3 amended theorem at the concrete phase name
`"Quality Audit"`. -/
theorem claim3_unknown_phase_empty_witness :
    List.lookup "Quality Audit" PHASES = none
  ∧ (validate_transition [] "Quality Audit" "Estimation" ["Estimator"]).valid = false :=
  ⟨rfl, (claim3_unknown_phase_empty "Quality Audit" rfl).2.2 [] "Estimation" ["Estimator"]⟩

/-- C9: a validation rule name outside the dispatcher's known names is
treated as passed — `valid=True` with an "Unknown validation rule" message —
so an unknown or misspelled rule name never blocks a transition. -/
theorem claim9_unknown_validation_rule_passes (doc : Doc) (rule_name : String)
    (h : rule_name ∉ knownValidationRules) :
    execValidationRule doc rule_name =
      ⟨true, "Unknown validation rule: " ++ rule_name⟩ := by
  simp only [knownValidationRules, List.mem_cons, List.not_mem_nil, or_false,
    not_or] at h
  obtain ⟨h1, h2, h3, h4, h5, h6, h7, h8, h9, h10,
          h11, h12, h13, h14, h15, h16, h17, h18, h19, h20⟩ := h
  simp [execValidationRule, h1, h2, h3, h4, h5, h6, h7, h8, h9, h10,
        h11, h12, h13, h14, h15, h16, h17, h18, h19, h20]

/-- Witness for C9 at the unknown rule name `"validate_frobnication"`. -/
theorem claim9_unknown_validation_rule_passes_witness :
    "validate_frobnication" ∉ knownValidationRules
  ∧ execValidationRule [] "validate_frobnication" =
      ⟨true, "Unknown validation rule: validate_frobnication"⟩ :=
  ⟨by decide,
   claim9_unknown_validation_rule_passes [] "validate_frobnication" (by decide)⟩

/-- C10: a rule whose condition list is empty gets
`{all_passed: True, total: 0, passed: 0}` from `evaluate_conditions`, so the
rule passes and every one of its actions is executed (the collected tokens
are the per-action results over the whole action list). -/
theorem claim10_empty_conditions_pass (rule : Rule) (ctx : Ctx)
    (h : rule.conditions = []) :
    evaluate_conditions rule.conditions ctx = ⟨true, 0, 0, []⟩
  ∧ (execute_rule rule ctx).passed = true
  ∧ (execute_rule rule ctx).conditions_evaluated = 0
  ∧ (execute_rule rule ctx).actions = rule.actions.filterMap executeAction := by
  refine ⟨?_, ?_, ?_, ?_⟩ <;> simp [execute_rule, h, evaluate_conditions]

/-- A rule with no conditions and two actions, for the C10 witness. -/
def emptyCondRule : Rule :=
  ⟨"auto_pass", none, [], [⟨"check_lead_times", []⟩, ⟨"create_task", []⟩]⟩

/-- Witness for C10: the no-condition rule passes and both its actions run. -/
theorem claim10_empty_conditions_pass_witness :
    emptyCondRule.conditions = []
  ∧ (execute_rule emptyCondRule []).passed = true
  ∧ (execute_rule emptyCondRule []).actions
      = ["lead_times_checked", "task_created:general"] := by
  refine ⟨rfl, (claim10_empty_conditions_pass emptyCondRule [] rfl).2.1, ?_⟩
  rw [(claim10_empty_conditions_pass emptyCondRule [] rfl).2.2.2]
  rfl

/-- C4: when the destination phase's required-field check is the operative
one (the transition is defined and the actor's roles pass), a document
missing at least one required field fails validation with a `ValidationError`
message that enumerates EVERY missing field, and `execute_transition` raises
that message (`frappe.throw`) before any state change, so the returned value
carries no mutated document — `phase`/`phase_start_time` are untouched. -/
theorem claim4_missing_fields_all_listed (doc : Doc) (to_state : String)
    (roles : List String) (handler : String → Doc → Except String Unit)
    (comment : Option String)
    (htrans : to_state ∈ get_valid_transitions (docWorkflowState doc))
    (hroles : phaseSubmitRoles to_state = []
      ∨ ∃ role ∈ phaseSubmitRoles to_state, role ∈ roles)
    (hmiss : (phaseRequiredFields to_state).filter (fun f => !truthy (docGet doc f)) ≠ []) :
    validate_transition doc (docWorkflowState doc) to_state roles =
      ⟨false, "Missing required fields for " ++ to_state ++ ": "
        ++ String.intercalate ", "
            ((phaseRequiredFields to_state).filter (fun f => !truthy (docGet doc f)))⟩
  ∧ execute_transition handler doc to_state roles comment =
      .error ("Missing required fields for " ++ to_state ++ ": "
        ++ String.intercalate ", "
            ((phaseRequiredFields to_state).filter (fun f => !truthy (docGet doc f)))) := by
  have hv : validate_transition doc (docWorkflowState doc) to_state roles =
      ⟨false, "Missing required fields for " ++ to_state ++ ": "
        ++ String.intercalate ", "
            ((phaseRequiredFields to_state).filter (fun f => !truthy (docGet doc f)))⟩ := by
    rcases hroles with hr | hr
    · simp [validate_transition, htrans, hr, hmiss]
    · obtain ⟨role, hrmem, hrr⟩ := hr
      have hnot : ¬ (¬ phaseSubmitRoles to_state = []
          ∧ ∀ x ∈ phaseSubmitRoles to_state, x ∉ roles) :=
        fun hc => hc.2 role hrmem hrr
      simp [validate_transition, htrans, hnot, hmiss]
  exact ⟨hv, by simp [execute_transition, hv]⟩

/-- The document of the C4 witness: at `Submission` with none of the
Estimation-phase required fields set. -/
def bareDoc : Doc := [("workflow_state", .vStr "Submission")]

/-- Witness for C4: `Submission → Estimation` with an `Estimator` actor and
an empty document lists all three missing Estimation fields and leaves the
executor erroring. -/
theorem claim4_missing_fields_all_listed_witness :
    "Estimation" ∈ get_valid_transitions (docWorkflowState bareDoc)
  ∧ (phaseRequiredFields "Estimation").filter (fun f => !truthy (docGet bareDoc f))
      = ["scope_of_work", "material_requisitions", "labor_entries"]
  ∧ validate_transition bareDoc (docWorkflowState bareDoc) "Estimation" ["Estimator"] =
      ⟨false, "Missing required fields for Estimation: scope_of_work, material_requisitions, labor_entries"⟩
  ∧ execute_transition (fun _ _ => .ok ()) bareDoc "Estimation" ["Estimator"] none =
      .error "Missing required fields for Estimation: scope_of_work, material_requisitions, labor_entries" := by
  have h := claim4_missing_fields_all_listed bareDoc "Estimation" ["Estimator"]
    (fun _ _ => .ok ()) none (by decide)
    (Or.inr ⟨"Estimator", by decide, by decide⟩) (by decide)
  exact ⟨by decide, rfl, h.1, h.2⟩

/-- C5: for EVERY behaviour of the dispatched auto-action hooks — including
hooks that all fail — a validated transition succeeds: the phase is updated,
the auto-actions run in source order on the updated document, and each
failing auto-action contributes a logged error instead of rolling back or
failing the transition (hard validation versus soft auto-actions). -/
theorem claim5_auto_actions_soft_fail (handler : String → Doc → Except String Unit)
    (doc : Doc) (new_state : String) (roles : List String) (comment : Option String)
    (hvalid : (validate_transition doc (docWorkflowState doc) new_state roles).valid = true) :
    execute_transition handler doc new_state roles comment =
      .ok { message := "Successfully transitioned from " ++ docWorkflowState doc
              ++ " to " ++ new_state
            new_state := new_state
            doc := docSetState doc new_state
            autoActionErrors := (phaseAutoActions new_state).filterMap
              (autoActionLog handler (docSetState doc new_state))
            history := (docWorkflowState doc, new_state, comment)
            escalationArmed := match get_phase_config new_state with
              | none => false
              | some c => c.escalation.isSome } := by
  simp [execute_transition, hvalid, executeAutoActions_eq_filterMap]

/-- The document of the C5 witness: at `Submission` with every
Estimation-phase requirement satisfied. -/
def readyDoc : Doc :=
  [("workflow_state", .vStr "Submission"), ("scope_of_work", .vStr "dig"),
   ("material_requisitions", .vStr "mr-1"), ("labor_entries", .vStr "le-1")]

/-- An auto-action hook behaviour under which every dispatched action fails. -/
def failingHandler : String → Doc → Except String Unit := fun _ _ => .error "boom"

/-- Witness for C5: with every auto-action hook failing, the
`Submission → Estimation` transition still succeeds, the phase is updated,
and both dispatched Estimation auto-actions are logged as errors in order. -/
theorem claim5_auto_actions_soft_fail_witness :
    (validate_transition readyDoc (docWorkflowState readyDoc) "Estimation" ["Estimator"]).valid = true
  ∧ execute_transition failingHandler readyDoc "Estimation" ["Estimator"] none =
      .ok { message := "Successfully transitioned from " ++ docWorkflowState readyDoc
              ++ " to Estimation"
            new_state := "Estimation"
            doc := docSetState readyDoc "Estimation"
            autoActionErrors := (phaseAutoActions "Estimation").filterMap
              (autoActionLog failingHandler (docSetState readyDoc "Estimation"))
            history := (docWorkflowState readyDoc, "Estimation", none)
            escalationArmed := match get_phase_config "Estimation" with
              | none => false
              | some c => c.escalation.isSome }
  ∧ (phaseAutoActions "Estimation").filterMap
      (autoActionLog failingHandler (docSetState readyDoc "Estimation"))
      = ["Auto action error (calculate_estimates): boom",
         "Auto action error (notify_client): boom"]
  ∧ docWorkflowState (docSetState readyDoc "Estimation") = "Estimation" :=
  ⟨rfl,
   claim5_auto_actions_soft_fail failingHandler readyDoc "Estimation" ["Estimator"] none rfl,
   rfl, rfl⟩

/-- A context in which `float("xyz")` raises during the first condition of
`orExceptionRule` while the second condition holds. -/
def excCtx : Ctx := [("a", .vStr "xyz"), ("b", .vInt 1)]

/-- A rule whose first condition raises and selects OR logic, and whose
second condition is true in `excCtx`. -/
def orExceptionRule : Rule :=
  ⟨"or_rule", none,
   [⟨"a", ">", .vInt 5, some "OR"⟩, ⟨"b", "==", .vInt 1, none⟩], []⟩

/-- C6 counterexample: an exception raised while evaluating a rule's first
condition is caught and treated as that condition being `False` — under OR
logic the rule still PASSES, so the exception is NOT recorded as a failure of
that rule: `rules_failed` is empty, the rule is in `rules_passed`, and
`overall_result` stays true. -/
theorem claim6_counterexample :
    evalSingleCondition ⟨"a", ">", .vInt 5, some "OR"⟩ excCtx = .error ()
  ∧ (evaluate_rules excCtx [orExceptionRule]).rules_failed = []
  ∧ (evaluate_rules excCtx [orExceptionRule]).rules_passed = ["or_rule"]
  ∧ (evaluate_rules excCtx [orExceptionRule]).overall_result = true :=
  ⟨rfl, rfl, rfl, rfl⟩

/-- C6 amended: an exception while evaluating one condition is caught and
contributes `False` for that condition only (the rule fails only when the
resulting AND/OR combination is false); rule evaluation is fully isolated —
every field of the loop's result is a per-rule map/filter of the rule list,
so one rule's outcome never aborts or alters another's, and `overall_result`
is false exactly when some rule failed. -/
theorem claim6_per_rule_isolation :
    (∀ (c : Condition) (ctx : Ctx),
      evalSingleCondition c ctx = .error () → condResultBool c ctx = false)
  ∧ (∀ (ctx : Ctx) (rules : List Rule),
      (evaluate_rules ctx rules).rules_evaluated = rules.map (fun r => r.name)
    ∧ (evaluate_rules ctx rules).rules_passed =
        (rules.filter (fun r => (execute_rule r ctx).passed)).map (fun r => r.name)
    ∧ (evaluate_rules ctx rules).rules_failed =
        (rules.filter (fun r => !(execute_rule r ctx).passed)).map (fun r => r.name)
    ∧ (evaluate_rules ctx rules).actions_triggered =
        rules.flatMap (fun r =>
          if (execute_rule r ctx).passed then (execute_rule r ctx).actions else [])
    ∧ (evaluate_rules ctx rules).overall_result =
        rules.all (fun r => (execute_rule r ctx).passed)) := by
  constructor
  · intro c ctx herr
    simp [condResultBool, herr]
  · intro ctx rules
    rw [evaluate_rules, foldl_evalStep]
    simp

/-- Witness for the C6 amended theorem: the raising condition of the
counterexample context contributes `False`, and on a two-rule list the loop
fields take their per-rule closed forms. -/
theorem claim6_per_rule_isolation_witness :
    condResultBool ⟨"a", ">", .vInt 5, some "OR"⟩ excCtx = false
  ∧ (evaluate_rules excCtx [orExceptionRule, rangeRuleAnd]).rules_evaluated
      = ["or_rule", "range_rule"]
  ∧ (evaluate_rules excCtx [orExceptionRule, rangeRuleAnd]).rules_failed
      = ["range_rule"]
  ∧ (evaluate_rules excCtx [orExceptionRule, rangeRuleAnd]).overall_result = false :=
  ⟨claim6_per_rule_isolation.1 ⟨"a", ">", .vInt 5, some "OR"⟩ excCtx rfl,
   rfl, rfl, rfl⟩

/-- C7: on insert of a history entry with a non-null `from_phase` (and a job
order), the duration is the new entry's timestamp minus the timestamp of the
most recent prior entry of the same job order whose `to_phase` equals the new
entry's `from_phase`; with no such prior entry the duration stays unset. -/
theorem claim7_duration_from_most_recent_matching (history : List HistoryEntry)
    (e : HistoryEntry) (fp : String)
    (hfp : e.from_phase = some fp) (hfpne : fp ≠ "") (hjob : e.job_order ≠ "") :
    (∀ t, findPreviousTransition history e.job_order fp = some t →
        before_insert history e =
          { e with duration_in_previous_phase := some (formatDuration (e.transition_date - t)) }
      ∧ (∃ h ∈ history, h.job_order = e.job_order ∧ h.to_phase = fp
            ∧ h.transition_date = t)
      ∧ (∀ h ∈ history, h.job_order = e.job_order → h.to_phase = fp →
            h.transition_date ≤ t))
  ∧ (findPreviousTransition history e.job_order fp = none →
        before_insert history e = e
      ∧ ∀ h ∈ history, ¬ (h.job_order = e.job_order ∧ h.to_phase = fp)) := by
  constructor
  · intro t ht
    refine ⟨?_, ?_, ?_⟩
    · simp [before_insert, hfp, hfpne, hjob, calculate_phase_duration, ht]
    · have hmem := ((maxTimestamp_spec _).1 t ht).1
      obtain ⟨h, hh, hdate⟩ := List.mem_map.mp hmem
      have hfm := List.mem_filter.mp hh
      refine ⟨h, hfm.1, ?_, ?_, hdate⟩
      · simpa using (Bool.and_elim_left hfm.2)
      · simpa using (Bool.and_elim_right hfm.2)
    · intro h hh hje hto
      refine ((maxTimestamp_spec _).1 t ht).2 h.transition_date ?_
      refine List.mem_map.mpr ⟨h, List.mem_filter.mpr ⟨hh, ?_⟩, rfl⟩
      simp [hje, hto]
  · intro hnone
    have hnil := (maxTimestamp_spec _).2 hnone
    have hfil : (history.filter
        (fun h => h.job_order == e.job_order && h.to_phase == fp)) = [] := by
      rcases hfe : history.filter
          (fun h => h.job_order == e.job_order && h.to_phase == fp) with _ | ⟨x, xs⟩
      · exact hfe
      · rw [hfe] at hnil; simp at hnil
    constructor
    · simp [before_insert, hfp, hfpne, hjob, calculate_phase_duration,
        findPreviousTransition, hfil, maxTimestamp]
    · intro h hh hc
      have : h ∈ history.filter
          (fun h => h.job_order == e.job_order && h.to_phase == fp) :=
        List.mem_filter.mpr ⟨hh, by simp [hc.1, hc.2]⟩
      rw [hfil] at this
      simp at this

/-- The prior history of the C7 witness's job order. -/
def sampleHistory : List HistoryEntry :=
  [⟨"JOB-25-00001", none, "Submission", 100, none⟩,
   ⟨"JOB-25-00001", some "Submission", "Estimation", 200, none⟩]

/-- The entry inserted in the C7 witness. -/
def sampleEntry : HistoryEntry :=
  ⟨"JOB-25-00001", some "Estimation", "Client Approval", 7525, none⟩

/-- Witness for C7: the insert finds the `to_phase = Estimation` record at
timestamp 200 and stores the formatted difference `7525 - 200 = 7325`
seconds, i.e. `02:02:05`. -/
theorem claim7_duration_from_most_recent_matching_witness :
    sampleEntry.from_phase = some "Estimation"
  ∧ findPreviousTransition sampleHistory "JOB-25-00001" "Estimation" = some 200
  ∧ before_insert sampleHistory sampleEntry =
      { sampleEntry with duration_in_previous_phase := some "02:02:05" } := by
  refine ⟨rfl, rfl, ?_⟩
  have h := (claim7_duration_from_most_recent_matching sampleHistory sampleEntry
    "Estimation" rfl (by decide) (by decide)).1 200 rfl
  rw [h.1]
  rfl

/-- C8: a scheduled transition can be cancelled only by its creator or a
System Manager — any other actor gets a `PermissionError` and the request is
untouched; a creator or administrator can cancel at any point before the
request is `Completed`/`Failed` (the code checks no status at all), the
status then becomes `Cancelled`, and `Cancelled` is terminal: every later
wake of the runner is a no-op that attempts no transition. -/
theorem claim8_cancel_only_creator_or_admin :
    (∀ (user : String) (roles : List String) (now : Int) (r : SchedRequest)
        (reason : String),
      r.created_by ≠ user → "System Manager" ∉ roles →
      cancel_scheduled_transition user roles now r reason =
        (⟨false, some "PermissionError",
          "Only the creator or System Manager can cancel scheduled transitions"⟩, r))
  ∧ (∀ (user : String) (roles : List String) (now : Int) (r : SchedRequest)
        (reason : String),
      (r.created_by = user ∨ "System Manager" ∈ roles) →
      (cancel_scheduled_transition user roles now r reason).1.success = true
      ∧ (cancel_scheduled_transition user roles now r reason).2.status = "Cancelled"
      ∧ (cancel_scheduled_transition user roles now r reason).2.cancellation_reason
          = some reason)
  ∧ (∀ (doc : Doc) (now : Int) (tp : String → String → Bool × String)
        (r : SchedRequest), r.status = "Cancelled" →
      execute_scheduled_transition doc now tp r = ⟨r, none, false⟩) := by
  refine ⟨?_, ?_, ?_⟩
  · intro user roles now r reason hcb hsm
    simp [cancel_scheduled_transition, hcb, hsm]
  · intro user roles now r reason hok
    have hcond : ¬ (r.created_by ≠ user ∧ "System Manager" ∉ roles) := by
      rcases hok with h | h
      · exact fun hc => hc.1 h
      · exact fun hc => hc.2 h
    simp [cancel_scheduled_transition, hcond]
  · intro doc now tp r hst
    simp [execute_scheduled_transition, hst]

/-- A pending scheduled request used by the C8 witness. -/
def pendingReq : SchedRequest :=
  { status := "Pending", job_order := "JOB-25-00001", action := "Request Estimation"
    scheduled_date := 1000, comments := none, conditions := none
    created_by := "alice", executed_at := none, execution_result := none
    cancellation_reason := none, cancelled_by := none, cancelled_at := none }

/-- Witness for C8: a stranger is rejected with `PermissionError`, the
creator's cancellation lands in the terminal `Cancelled` status, and the
wake of a cancelled request is a no-op. -/
theorem claim8_cancel_only_creator_or_admin_witness :
    (cancel_scheduled_transition "bob" ["Technician"] 5 pendingReq "hold").1.error
      = some "PermissionError"
  ∧ (cancel_scheduled_transition "alice" [] 5 pendingReq "done").2.status = "Cancelled"
  ∧ execute_scheduled_transition [] 9999 (fun _ _ => (true, "ok"))
      ((cancel_scheduled_transition "alice" [] 5 pendingReq "done").2) =
      ⟨(cancel_scheduled_transition "alice" [] 5 pendingReq "done").2, none, false⟩ := by
  refine ⟨?_, ?_, ?_⟩
  · rw [claim8_cancel_only_creator_or_admin.1 "bob" ["Technician"] 5 pendingReq "hold"
      (by decide) (by decide)]
  · exact (claim8_cancel_only_creator_or_admin.2.1 "alice" [] 5 pendingReq "done"
      (Or.inl rfl)).2.1
  · exact claim8_cancel_only_creator_or_admin.2.2 [] 9999 (fun _ _ => (true, "ok"))
      ((cancel_scheduled_transition "alice" [] 5 pendingReq "done").2) rfl

/-- The job document of the C2 failing input: its `priority` does not match
the stored condition. -/
def lowPriorityDoc : Doc := [("priority", .vStr "Low")]

/-- The C2 failing input: a `Pending` scheduled request whose stored
condition `priority == "Urgent"` is unmet at wake time. -/
def unmetReq : SchedRequest :=
  { status := "Pending", job_order := "JOB-25-00001", action := "Request Estimation"
    scheduled_date := 1000, comments := none
    conditions := some [⟨some "field_value", "priority", .vStr "Urgent", 0,
      "phase_start_date"⟩]
    created_by := "alice", executed_at := none, execution_result := none
    cancellation_reason := none, cancelled_by := none, cancelled_at := none }

/-- The first wake of the C2 failing input, at time 5000 (a late wake, 4000
seconds after the scheduled time 1000). -/
def unmetWake : WakeResult :=
  execute_scheduled_transition lowPriorityDoc 5000 (fun _ _ => (true, "ok")) unmetReq

/-- C2, evaluated at the failing input: the wake of a `Pending` request with
unmet conditions marks it `Rescheduled` and re-enqueues — but the re-arm
`eta` is `scheduled_date + 1h` (here 4600, already in the past of the wake at
5000), NOT `now + 1h`, and the re-armed wake is a permanent no-op for every
later time and every transition behaviour because the status is
`Rescheduled`, not `Pending`, and nothing resets it: the request is never
found `Pending` again and is never retried, contradicting the claim. -/
theorem claim2_reschedule_is_never_retried :
    unmetWake.req.status = "Rescheduled"
  ∧ unmetWake.enqueued = some (unmetReq.scheduled_date + 3600)
  ∧ unmetReq.scheduled_date + 3600 < 5000
  ∧ unmetWake.transitionAttempted = false
  ∧ (∀ (doc : Doc) (now : Int) (tp : String → String → Bool × String),
      execute_scheduled_transition doc now tp unmetWake.req =
        ⟨unmetWake.req, none, false⟩) := by
  refine ⟨rfl, rfl, by decide, rfl, ?_⟩
  intro doc now tp
  have hst : unmetWake.req.status = "Rescheduled" := rfl
  simp [execute_scheduled_transition, hst]

end ApiNext
